import Mathlib

/- Shallow embedding of the scoring pipeline of the healthcare-payer
data-validation repository: `backend/app/services/validation.py` (trust
scoring, identity / reachability / reputation checks, complaint
cross-referencing, decay heuristic), `backend/app/agents/fraud.py`,
`backend/app/agents/batch_business.py` and the batch loop of
`backend/app/api/routes.py`.  Python floats are modelled as rationals;
Python `round` (banker's rounding) is modelled exactly.  Python string
primitives (`upper`, `lower`, `strip`, `in`, `startswith`, `replace`) are
modelled by structural functions on the character list so that concrete
instances evaluate. -/

/- ══ Python primitives ══ -/

/-- Python `round(x)` on an exact rational: round half to even. -/
def pyRound (x : ℚ) : ℤ :=
  if x - ⌊x⌋ < 1/2 then ⌊x⌋
  else if 1/2 < x - ⌊x⌋ then ⌊x⌋ + 1
  else if ⌊x⌋ % 2 = 0 then ⌊x⌋ else ⌊x⌋ + 1

/-- Python `round(x, 1)`. -/
def round1 (x : ℚ) : ℚ := (pyRound (10 * x) : ℚ) / 10

/-- Python `round(x, 2)`. -/
def round2 (x : ℚ) : ℚ := (pyRound (100 * x) : ℚ) / 100

/-- Python `s.upper()` (ASCII case mapping suffices for this data). -/
def pyUpper (s : String) : String := String.mk (s.toList.map Char.toUpper)

/-- Python `s.lower()`. -/
def pyLower (s : String) : String := String.mk (s.toList.map Char.toLower)

/-- Python `s.strip()`. -/
def pyStrip (s : String) : String :=
  String.mk (((s.toList.dropWhile Char.isWhitespace).reverse.dropWhile
    Char.isWhitespace).reverse)

/-- Python `s[:n]` (also `s[-n:]` is `pyTakeRight`). -/
def pyTake (s : String) (n : Nat) : String := String.mk (s.toList.take n)

def listIsPrefix : List Char → List Char → Bool
  | [], _ => true
  | _ :: _, [] => false
  | a :: as, b :: bs => a == b && listIsPrefix as bs

def listIsInfix (needle : List Char) : List Char → Bool
  | [] => needle.isEmpty
  | c :: rest => listIsPrefix needle (c :: rest) || listIsInfix needle rest

/-- Python `needle in haystack` on strings. -/
def strContains (haystack needle : String) : Bool :=
  listIsInfix needle.toList haystack.toList

/-- Python `s.startswith(p)`. -/
def strStartsWith (s p : String) : Bool := listIsPrefix p.toList s.toList

def pyReplaceFuel (old new : List Char) : Nat → List Char → List Char
  | _, [] => []
  | 0, rest => rest
  | fuel + 1, c :: rest =>
      if listIsPrefix old (c :: rest) && !old.isEmpty then
        new ++ pyReplaceFuel old new fuel ((c :: rest).drop old.length)
      else
        c :: pyReplaceFuel old new fuel rest

/-- Python `s.replace(old, new)` for non-empty `old` (the embedding only
uses it to strip the leading verdict markers from finding strings). -/
def pyReplace (s old new : String) : String :=
  String.mk (pyReplaceFuel old.toList new.toList s.toList.length s.toList)

/- ══ validation.py: constants ══ -/

/-- Trust-score weights (validation.py lines 22-25). -/
def W1 : ℚ := 40/100
def W2 : ℚ := 30/100
def W3 : ℚ := 30/100

/-- `SPECIALTY_DECAY_RATES` (lines 28-45) together with the
`.get(specialty, 0.15)` default of line 352. -/
def SPECIALTY_DECAY_RATES (specialty : String) : ℚ :=
  if specialty = "Internal Medicine" then 15/100
  else if specialty = "Family Medicine" then 12/100
  else if specialty = "Family Practice" then 12/100
  else if specialty = "Cardiology" then 10/100
  else if specialty = "Orthopedic Surgery" then 10/100
  else if specialty = "Dermatology" then 8/100
  else if specialty = "Psychiatry" then 18/100
  else if specialty = "Emergency Medicine" then 25/100
  else if specialty = "Urgent Care" then 30/100
  else if specialty = "Physician Assistant" then 22/100
  else if specialty = "Nurse Practitioner" then 20/100
  else if specialty = "Physical Therapist" then 18/100
  else if specialty = "Optometry" then 10/100
  else if specialty = "Podiatry" then 12/100
  else if specialty = "Chiropractic" then 14/100
  else if specialty = "General Surgery" then 13/100
  else 15/100

/-- `HIGH_MOBILITY_STATES` (line 48). -/
def HIGH_MOBILITY_STATES : List String := ["FL", "AZ", "NV", "TX", "CA", "CO", "GA"]

/- ══ validation.py: data model ══ -/

/-- One CSV row, as the pipeline reads it: `csv.DictReader` yields every
column, so `row.get(key, "")` is plain field access with `""` for a blank
cell. -/
structure CsvRow where
  NPI : String := ""
  First_Name : String := ""
  Last_Name : String := ""
  Credential : String := ""
  Specialty : String := ""
  State : String := ""
  Address : String := ""
  City : String := ""
  ZIP : String := ""
  Phone : String := ""
  Last_Updated : String := ""

/-- The `basic` block of an NPPES result (read with `.get(…, "")`). -/
structure NppesBasic where
  first_name : String := ""
  last_name : String := ""
  credential : String := ""
  status : String := ""
  last_updated : String := ""
  enumeration_date : String := ""

structure NppesAddress where
  address_1 : String := ""
  city : String := ""
  state : String := ""
  postal_code : String := ""
  telephone_number : String := ""

structure NppesTaxonomy where
  primary : Bool := false
  desc : String := ""
  code : String := ""
  license : String := ""
  state : String := ""

/-- `data["results"][0]` of a successful NPPES lookup. -/
structure NppesRecord where
  basic : NppesBasic := {}
  addresses : List NppesAddress := []
  taxonomies : List NppesTaxonomy := []

/-- The `nppes_data` dict built in lines 103-127; keys that are absent
(no address, no taxonomy) are read back with `.get(…, "")`, so they are
plain `""`-defaulted fields here. -/
structure NppesData where
  first_name : String := ""
  last_name : String := ""
  credential : String := ""
  status : String := ""
  last_updated : String := ""
  enumeration_date : String := ""
  address : String := ""
  city : String := ""
  state : String := ""
  zip : String := ""
  phone : String := ""
  specialty_desc : String := ""
  specialty_code : String := ""
  license : String := ""
  license_state : String := ""

/-- `next((t for t in taxonomies if t.get("primary")), taxonomies[0])`,
evaluated only when `taxonomies` is non-empty (line 123). -/
def primaryTaxonomy : List NppesTaxonomy → Option NppesTaxonomy
  | [] => none
  | t :: ts => some (((t :: ts).find? (·.primary)).getD t)

/-- Lines 103-127: build `nppes_data` from the registry record. -/
def mkNppesData (rec : NppesRecord) : NppesData :=
  let base : NppesData :=
    { first_name := rec.basic.first_name
      last_name := rec.basic.last_name
      credential := rec.basic.credential
      status := rec.basic.status
      last_updated := rec.basic.last_updated
      enumeration_date := rec.basic.enumeration_date }
  let withAddr : NppesData :=
    match rec.addresses with
    | [] => base
    | a :: _ =>
        { base with
          address := a.address_1, city := a.city, state := a.state,
          zip := a.postal_code, phone := a.telephone_number }
  match primaryTaxonomy rec.taxonomies with
  | none => withAddr
  | some t =>
      { withAddr with
        specialty_desc := t.desc, specialty_code := t.code,
        license := t.license, license_state := t.state }

/- ══ validation.py: helpers (lines 51-62) ══ -/

/-- `fuzzy_match` (lines 51-55).  `ratio` stands for the external
`difflib.SequenceMatcher(None, a, b).ratio()`; the embedding is
parameterised over it. -/
def fuzzy_match (ratio : String → String → ℚ) (a b : String) : ℚ :=
  if a = "" ∨ b = "" then 0
  else ratio (pyStrip (pyUpper a)) (pyStrip (pyUpper b))

/-- `normalize_phone` (lines 58-62): strip to digits, keep the last 10. -/
def normalize_phone (phone : String) : String :=
  if phone = "" then ""
  else
    let digits := phone.toList.filter Char.isDigit
    String.mk (digits.drop (digits.length - 10))

/- ══ validation.py: validate_nppes (lines 65-194) ══ -/

/-- Outcome of the NPPES registry call (lines 78-96): the request may raise
(`except` branch), answer with `result_count == 0`, or yield a first
result record. -/
inductive NppesLookup where
  | apiError (msg : String)
  | notFound
  | found (rec : NppesRecord)

structure NppesResult where
  s1 : ℚ
  findings : List String
  nppes_data : Option NppesData
  lambda_penalty : ℚ
  nppes_found : Bool

/-- `f"{name_sim:.0%}"`-style percent rendering (cosmetic, only appears
inside finding strings). -/
def pctFmt (x : ℚ) : String := toString (pyRound (100 * x)) ++ "%"

/-- Check 1, name match (lines 133-149): returns the appended check value
and the appended findings. -/
def name_check (ratio : String → String → ℚ) (row : CsvRow) (nd : NppesData) :
    ℚ × List String :=
  let name_sim := (fuzzy_match ratio row.First_Name nd.first_name
    + fuzzy_match ratio row.Last_Name nd.last_name) / 2
  if name_sim ≥ 85/100 then
    (1, ["✓ Name match: " ++ row.First_Name ++ " " ++ row.Last_Name
      ++ " ↔ NPPES: " ++ nd.first_name ++ " " ++ nd.last_name])
  else if name_sim ≥ 1/2 then
    (1/2, ["⚠ Partial name match (" ++ pctFmt name_sim ++ "): CSV '"
      ++ row.First_Name ++ " " ++ row.Last_Name ++ "' vs NPPES '"
      ++ nd.first_name ++ " " ++ nd.last_name ++ "'"])
  else
    (0, ["✗ Name MISMATCH: CSV '" ++ row.First_Name ++ " " ++ row.Last_Name
      ++ "' vs NPPES '" ++ nd.first_name ++ " " ++ nd.last_name ++ "'"])

/-- Check 2, credential match (lines 151-163). -/
def credential_check (ratio : String → String → ℚ) (row : CsvRow) (nd : NppesData) :
    ℚ × List String :=
  let cred_sim := fuzzy_match ratio row.Credential nd.credential
  if cred_sim ≥ 7/10 then (1, [])
  else if cred_sim ≥ 3/10 then
    (1/2, ["⚠ Credential partial match: CSV '" ++ row.Credential
      ++ "' vs NPPES '" ++ nd.credential ++ "'"])
  else
    (2/10,
      if row.Credential ≠ "" ∧ nd.credential ≠ "" then
        ["✗ Credential mismatch: CSV '" ++ row.Credential ++ "' vs NPPES '"
          ++ nd.credential ++ "'"]
      else [])

/-- Check 3, specialty match (lines 165-176). -/
def specialty_check (ratio : String → String → ℚ) (row : CsvRow) (nd : NppesData) :
    ℚ × List String :=
  let spec_sim := fuzzy_match ratio row.Specialty nd.specialty_desc
  if spec_sim ≥ 1/2 then (1, [])
  else if spec_sim ≥ 1/4 then
    (6/10, ["⚠ Specialty partial match: CSV '" ++ row.Specialty
      ++ "' vs NPPES '" ++ nd.specialty_desc ++ "'"])
  else
    (2/10, ["✗ Specialty mismatch: CSV '" ++ row.Specialty ++ "' vs NPPES '"
      ++ nd.specialty_desc ++ "'"])

/-- Check 4, state match (lines 178-185). -/
def state_check (row : CsvRow) (nd : NppesData) : ℚ × List String :=
  if row.State ≠ "" ∧ nd.state ≠ "" ∧ pyUpper row.State = pyUpper nd.state then
    (1, [])
  else
    (0, ["✗ State mismatch: CSV '" ++ row.State ++ "' vs NPPES '"
      ++ nd.state ++ "'"])

/-- `validate_nppes` (lines 65-194). -/
def validate_nppes (ratio : String → String → ℚ) (npi : String) (row : CsvRow)
    (lookup : NppesLookup) : NppesResult :=
  match lookup with
  | .apiError msg =>
      { s1 := 3/10
        findings := ["NPPES API error: " ++ pyTake msg 80]
        nppes_data := none, lambda_penalty := 0, nppes_found := false }
  | .notFound =>
      { s1 := 0
        findings := ["NPI " ++ npi ++ " NOT FOUND in NPPES registry"]
        nppes_data := none, lambda_penalty := 9/10, nppes_found := false }
  | .found rec =>
      let nd := mkNppesData rec
      let c1 := name_check ratio row nd
      let c2 := credential_check ratio row nd
      let c3 := specialty_check ratio row nd
      let c4 := state_check row nd
      -- NPI status check (lines 187-191): `npi_status and npi_status.upper() == "D"`
      let deactivated : Bool := rec.basic.status ≠ "" ∧ pyUpper rec.basic.status = "D"
      { s1 := (c1.1 + c2.1 + c3.1 + c4.1) / 4  -- sum(checks)/len(checks), 4 checks
        findings := c1.2 ++ c2.2 ++ c3.2 ++ c4.2
          ++ (if deactivated then ["✗ NPI is DEACTIVATED in NPPES registry"] else [])
        nppes_data := some nd
        lambda_penalty := if deactivated then max 0 (1/2) else 0
        nppes_found := true }

/-- Verdict a finding string receives when it becomes an agent thought
(`generate_agent_thoughts`, validation.py line 407). -/
def verdictOf (finding : String) : String :=
  if strStartsWith finding "✓" then "pass"
  else if strStartsWith finding "✗" then "fail"
  else "warn"

/- ══ validation.py: validate_reachability (lines 197-285) ══ -/

/-- Outcome of the Census geocoder call: exception, or the
`addressMatches` list (each entry its `matchedAddress`). -/
inductive GeoLookup where
  | apiError (msg : String)
  | ok (addressMatches : List String)

structure MedicareRec where
  city : String := ""
  state : String := ""

/-- Outcome of the Medicare activity call: exception, or an HTTP status
with the returned records. -/
inductive MedicareLookup where
  | apiError (msg : String)
  | status (code : Nat) (records : List MedicareRec)

structure ReachabilityResult where
  s2 : ℚ
  findings : List String
  medicare_found : Bool
  geocoder_match : Bool

/-- `validate_reachability` (lines 197-285). -/
def validate_reachability (row : CsvRow) (nppes_data : Option NppesData)
    (geo : GeoLookup) (med : MedicareLookup) : ReachabilityResult :=
  let one_line := row.Address ++ ", " ++ row.City ++ ", " ++ row.State ++ " " ++ row.ZIP
  -- Census geocoder (lines 214-233)
  let gPart : List ℚ × List String × Bool :=
    match geo with
    | .apiError msg => ([3/10], ["Geocoder API error: " ++ pyTake msg 80], false)
    | .ok [] => ([0], ["✗ Address could not be geocoded: '" ++ one_line ++ "'"], false)
    | .ok (m :: _) => ([1], ["✓ Address geocoded successfully: " ++ m], true)
  -- Phone check (lines 236-247)
  let csv_phone := normalize_phone row.Phone
  let nppes_phone := normalize_phone (match nppes_data with
    | some nd => nd.phone
    | none => "")
  let pPart : List ℚ × List String :=
    if csv_phone ≠ "" ∧ nppes_phone ≠ "" then
      if csv_phone = nppes_phone then
        ([1], ["✓ Phone number matches NPPES record"])
      else
        ([3/10], ["⚠ Phone mismatch: CSV '" ++ csv_phone ++ "' vs NPPES '"
          ++ nppes_phone ++ "'"])
    else if csv_phone ≠ "" then ([1/2], [])
    else ([], [])
  -- Medicare activity check (lines 250-282)
  let mPart : List ℚ × List String × Bool :=
    match med with
    | .apiError msg =>
        ([1/2], ["Medicare API timeout (non-critical): " ++ pyTake msg 60], false)
    | .status code recs =>
        if code = 200 then
          match recs with
          | [] => ([1/2], ["⚠ No Medicare billing records found for this NPI"], false)
          | r :: _ =>
              let csv_state_upper := if row.State ≠ "" then pyUpper row.State else ""
              let found : List ℚ × List String × Bool :=
                ([1], ["✓ Medicare billing activity found — " ++ r.city ++ ", "
                  ++ r.state], true)
              if r.state ≠ "" ∧ csv_state_upper ≠ "" ∧ r.state ≠ csv_state_upper then
                (found.1 ++ [3/10],
                 found.2.1 ++ ["⚠ Medicare billing state (" ++ r.state
                   ++ ") differs from CSV state (" ++ csv_state_upper ++ ")"],
                 true)
              else found
        else ([1/2], [], false)
  let checks := gPart.1 ++ pPart.1 ++ mPart.1
  { s2 := if checks.length = 0 then 1/2 else checks.sum / (checks.length : ℚ)
    findings := gPart.2.1 ++ pPart.2 ++ mPart.2.1
    medicare_found := mPart.2.2
    geocoder_match := gPart.2.2 }

/- ══ validation.py: compute_reputation (lines 288-334) ══ -/

structure ReputationResult where
  s3 : ℚ
  findings : List String

/-- `compute_reputation` (lines 288-334). -/
def compute_reputation (nppes_data : Option NppesData) (row : CsvRow) :
    ReputationResult :=
  match nppes_data with
  | none =>
      { s3 := 3/10, findings := ["⚠ Cannot assess reputation — NPPES data unavailable"] }
  | some nd =>
      -- NPI active status (lines 302-310)
      let sPart : List ℚ × List String :=
        if nd.status ≠ "" ∧ pyUpper nd.status = "A" then
          ([1], ["✓ NPI status is Active"])
        else if nd.status ≠ "" then
          ([0], ["✗ NPI status: " ++ nd.status])
        else ([7/10], [])
      -- License state vs CSV state (lines 313-323)
      let lPart : List ℚ × List String :=
        if nd.license_state ≠ "" ∧ row.State ≠ "" then
          if pyUpper nd.license_state = pyUpper row.State then
            ([1], ["✓ License state (" ++ nd.license_state ++ ") matches CSV state"])
          else
            ([4/10], ["⚠ License state (" ++ nd.license_state
              ++ ") differs from CSV state (" ++ row.State ++ ")"])
        else ([], [])
      -- Credential present (lines 326-331)
      let cPart : List ℚ × List String :=
        if nd.credential ≠ "" then ([1], [])
        else ([6/10], ["⚠ No credential on file in NPPES"])
      let checks := sPart.1 ++ lPart.1 ++ cPart.1
      { s3 := if checks.length = 0 then 1/2 else checks.sum / (checks.length : ℚ)
        findings := sPart.2 ++ lPart.2 ++ cPart.2 }

/- ══ validation.py: compute_trust_score (lines 337-343) ══ -/

/-- `compute_trust_score`: `T = 100 × (w1·s1 + w2·s2 + w3·s3) × (1 - λ)`,
clamped to `[0,100]`, rounded to one decimal. -/
def compute_trust_score (s1 s2 s3 lambda_penalty : ℚ) : ℚ :=
  let raw := W1 * s1 + W2 * s2 + W3 * s3
  let T := 100 * raw * (1 - lambda_penalty)
  round1 (max 0 (min 100 T))

/- ══ validation.py: compute_decay_probability (lines 346-385) ══ -/

/-- `compute_decay_probability` (lines 346-385).  `parse` stands for the
`datetime.strptime` attempts over the three formats on the first ten
characters, giving the parsed date as a day number; `today` is
`datetime.now()` as a day number, so `today - d` is
`(datetime.now() - updated_dt).days`.  When every format fails, the
source's `for … else` sets `updated_dt = None` and the `if updated_dt:`
block is skipped, so `recency` keeps its initial value `1.0`; the
`except Exception: recency = 1.5` branch is unreachable for a string
input because `strptime` failures are `ValueError`s already caught by
the inner `try` of the format loop. -/
def compute_decay_probability (parse : String → Option ℤ) (today : ℤ)
    (specialty last_updated state : String) : ℚ :=
  let base := SPECIALTY_DECAY_RATES specialty
  let recency : ℚ :=
    if last_updated ≠ "" then
      match parse (pyTake last_updated 10) with
      | some d =>
          let months_since : ℚ := ((today - d : ℤ) : ℚ) / 30
          if months_since > 24 then 25/10
          else if months_since > 12 then 18/10
          else if months_since > 6 then 13/10
          else 1
      | none => 1
    else 1
  let state_factor : ℚ :=
    if state ≠ "" ∧ pyUpper state ∈ HIGH_MOBILITY_STATES then 13/10 else 1
  round2 (min (base * recency * state_factor) (99/100))

/-- Modelled from the spec (§4.7), for comparison with the code: identical
to `compute_decay_probability` except that a non-empty date that parses
with none of the formats yields recency factor 1.5 ("unknown = moderate
risk", never treated as fresh), as the source's own dead `except` branch
intends. -/
def spec_decay_probability (parse : String → Option ℤ) (today : ℤ)
    (specialty last_updated state : String) : ℚ :=
  let base := SPECIALTY_DECAY_RATES specialty
  let recency : ℚ :=
    if last_updated ≠ "" then
      match parse (pyTake last_updated 10) with
      | some d =>
          let months_since : ℚ := ((today - d : ℤ) : ℚ) / 30
          if months_since > 24 then 25/10
          else if months_since > 12 then 18/10
          else if months_since > 6 then 13/10
          else 1
      | none => 15/10
    else 1
  let state_factor : ℚ :=
    if state ≠ "" ∧ pyUpper state ∈ HIGH_MOBILITY_STATES then 13/10 else 1
  round2 (min (base * recency * state_factor) (99/100))

/- ══ validation.py: complaint cross-referencing (lines 694-776) ══ -/

/-- One complaint record as `load_complaints` builds it (lines 659-664). -/
structure Complaint where
  field : String := ""
  value : String := ""
  date : String := ""
  notes : String := ""
deriving DecidableEq

/-- An agent thought (domain/models.AgentThought); the wall-clock
timestamp field is elided. -/
structure AgentThought where
  agentName : String
  thought : String
  verdict : String

structure ComplaintResult where
  lambda_boost : ℚ
  confirmed : List Complaint
  unconfirmed : List Complaint
  thoughts : List AgentThought

/-- `FIELD_KEYWORDS` (lines 720-726) with the `.get(field, [])` default of
line 732. -/
def FIELD_KEYWORDS (field : String) : List String :=
  if field = "phone" then ["phone", "telephone"]
  else if field = "address" then ["address", "geocod", "location", "moved"]
  else if field = "specialty" then ["specialty", "specializ", "taxonomy"]
  else if field = "name" then ["name", "mismatch"]
  else if field = "general" then []
  else []

/-- Lines 732-742: `is_confirmed` for one complaint — some keyword of its
field appears in the lowercased findings text (`if keywords:` guards the
scan, so an empty keyword list is never confirmed). -/
def complaint_confirmed (findings_lower : String) (c : Complaint) : Bool :=
  !(FIELD_KEYWORDS c.field).isEmpty
    && (FIELD_KEYWORDS c.field).any (fun kw => strContains findings_lower kw)

/-- The `for complaint in provider_complaints` loop of lines 730-749:
(confirmed, unconfirmed, lambda-boost accumulator before the cap). -/
def classify_complaints (findings_lower : String) :
    List Complaint → List Complaint × List Complaint × ℚ
  | [] => ([], [], 0)
  | c :: rest =>
      let acc := classify_complaints findings_lower rest
      if complaint_confirmed findings_lower c then
        (c :: acc.1, acc.2.1, acc.2.2 + 15/100)
      else (acc.1, c :: acc.2.1, acc.2.2 + 8/100)

/-- `cross_reference_complaints` (lines 694-776); `npi` is carried but
unread, as in the source. -/
def cross_reference_complaints (npi : String)
    (provider_complaints : List Complaint)
    (validation_findings : List String) : ComplaintResult :=
  if provider_complaints.isEmpty then
    { lambda_boost := 0, confirmed := [], unconfirmed := [], thoughts := [] }
  else
    let findings_lower := pyLower (String.intercalate " " validation_findings)
    let cls := classify_complaints findings_lower provider_complaints
    let lambda_boost := round2 (min cls.2.2 (50/100))
    let confirmed_count := cls.1.length
    let unconfirmed_count := cls.2.1.length
    let t1 : List AgentThought :=
      if confirmed_count > 0 then
        [{ agentName := "Complaint Directory"
           thought := "MATCH FOUND: " ++ toString confirmed_count
             ++ " member complaint(s) corroborated by validation findings (Fields: "
             ++ String.intercalate ", " ((cls.1.map (·.field)).dedup)
             ++ "). Increasing risk penalty."
           verdict := "fail" }]
      else []
    let t2 : List AgentThought :=
      if unconfirmed_count > 0 then
        [{ agentName := "Complaint Directory"
           thought := toString unconfirmed_count
             ++ " member complaint(s) found in registry. While not directly corroborated by external API failures, these remain risk factors."
           verdict := "warn" }]
      else []
    { lambda_boost := lambda_boost, confirmed := cls.1, unconfirmed := cls.2.1,
      thoughts := t1 ++ t2 }

/- ══ validation.py: validate_single_provider (lines 490-618) ══ -/

/-- The scoring slice of `validate_single_provider`'s return value; the
narrative fields (thoughts ordering, locations, contact numbers) are not
read by any scoring rule and are elided. -/
structure ProviderOutput where
  npi : String
  name : String
  specialty : String
  state : String
  risk_score : ℚ
  trust_score : ℚ
  decay_prob : ℚ
  status : String
  conflicts : List String
  s1 : ℚ
  s2 : ℚ
  s3 : ℚ
  lambda_penalty : ℚ

/-- The λ composition of lines 515-523, factored out verbatim: start from
the registry penalty, raise it to at least 0.5 when the geocoder failed
AND a reputation finding mentions a license-state difference, add the
complaint boost, cap at 0.95. -/
def compose_lambda (nppes_lambda : ℚ) (geocoder_match : Bool)
    (reputation_findings : List String) (complaint_boost : ℚ) : ℚ :=
  let lam :=
    if !geocoder_match && reputation_findings.any
        (fun f => strContains f "License state" && strContains f "differs") then
      max nppes_lambda (1/2)
    else nppes_lambda
  min (lam + complaint_boost) (95/100)

/-- `validate_single_provider` (lines 490-618).  `complaintDir` models
`load_complaints().get(npi, [])`; the three network calls are the
`lookup`, `geo` and `med` outcomes; `parse`/`today` feed the decay
heuristic. -/
def validate_single_provider (ratio : String → String → ℚ)
    (parse : String → Option ℤ) (today : ℤ)
    (complaintDir : String → List Complaint)
    (row : CsvRow) (lookup : NppesLookup) (geo : GeoLookup)
    (med : MedicareLookup) : ProviderOutput :=
  let npi := row.NPI
  let nppes_result := validate_nppes ratio npi row lookup
  let nppes_data := nppes_result.nppes_data
  let reachability_result := validate_reachability row nppes_data geo med
  let reputation_result := compute_reputation nppes_data row
  let provider_complaints := complaintDir npi
  let all_findings_text := nppes_result.findings ++ reachability_result.findings
    ++ reputation_result.findings
  let complaint_result :=
    cross_reference_complaints npi provider_complaints all_findings_text
  let lambda_penalty := compose_lambda nppes_result.lambda_penalty
    reachability_result.geocoder_match reputation_result.findings
    complaint_result.lambda_boost
  let s1 := nppes_result.s1
  let s2 := reachability_result.s2
  let s3 := reputation_result.s3
  let trust_score := compute_trust_score s1 s2 s3 lambda_penalty
  let risk_score := round1 (100 - trust_score)
  let decay_prob :=
    compute_decay_probability parse today row.Specialty row.Last_Updated row.State
  let status :=
    if risk_score > 70 then "Flagged"
    else if risk_score > 35 then "Review"
    else "Verified"
  let conflicts :=
    ((nppes_result.findings.filter (fun f => strStartsWith f "✗")).map
      (fun f => pyReplace f "✗ " ""))
    ++ ((reachability_result.findings.filter (fun f => strStartsWith f "✗")).map
      (fun f => pyReplace f "✗ " ""))
    ++ (complaint_result.confirmed.map
      (fun c => "Confirmed Complaint: " ++ c.field ++ " - " ++ c.value))
  { npi := npi
    name := pyStrip (row.First_Name ++ " " ++ row.Last_Name)
    specialty := row.Specialty
    state := row.State
    risk_score := risk_score
    trust_score := trust_score
    decay_prob := decay_prob
    status := status
    conflicts := conflicts
    s1 := s1, s2 := s2, s3 := s3
    lambda_penalty := lambda_penalty }

/-- Modelled from the spec (§4.4), for comparison with the code: "λ is the
sum of independently triggered penalty contributions (not-found,
deactivated, reachability+reputation joint failure, complaint boost),
capped at 0.95 before use". -/
def spec_lambda_sum (not_found deactivated joint : Bool) (complaint_boost : ℚ) : ℚ :=
  min ((if not_found then 9/10 else 0) + (if deactivated then 1/2 else 0)
    + (if joint then 1/2 else 0) + complaint_boost) (95/100)

/- ══ agents/fraud.py: fraud_agent_node (lines 4-51) ══ -/

inductive FraudRiskLevel where
  | LOW
  | MEDIUM
  | HIGH
deriving DecidableEq

/-- The slice of `ValidationResult` the fraud agent reads. -/
structure ValidationFlags where
  npi_valid : Bool := true
  oig_excluded : Bool := false
  is_consistent : Bool := true

structure FraudAnalysis where
  risk_score : ℚ
  risk_level : FraudRiskLevel
  flagged_patterns : List String

structure FraudOutput where
  fraud_analysis : FraudAnalysis
  communication_required : Bool

/-- `fraud_agent_node` (fraud.py lines 4-51): rule-based point
accumulation and thresholds; `none` models a state with no
validation_result, on which every rule's guard is falsy. -/
def fraud_agent_node (validation_result : Option ValidationFlags) : FraudOutput :=
  let oig := match validation_result with
    | some vr => vr.oig_excluded
    | none => false
  let invalid_npi := match validation_result with
    | some vr => !vr.npi_valid
    | none => false
  let inconsistent := match validation_result with
    | some vr => !vr.is_consistent
    | none => false
  let risk_score : ℚ := (if oig then 90 else 0) + (if invalid_npi then 60 else 0)
    + (if inconsistent then 25 else 0)
  let flags := (if oig then ["OIG Exclusion Match"] else [])
    ++ (if invalid_npi then ["Invalid NPI"] else [])
    ++ (if inconsistent then ["Data Inconsistency"] else [])
  let level :=
    if risk_score ≥ 80 then FraudRiskLevel.HIGH
    else if risk_score ≥ 20 then FraudRiskLevel.MEDIUM
    else FraudRiskLevel.LOW
  { fraud_analysis :=
      { risk_score := risk_score, risk_level := level, flagged_patterns := flags }
    communication_required := level = FraudRiskLevel.HIGH }

/- ══ agents/batch_business.py: BatchBusinessAgent.analyze_batch ══ -/

/-- The `fraud_analysis` block of a stored result state, as the batch
aggregator reads it (risk_level is the serialized string). -/
structure BatchFraudInfo where
  risk_score : ℚ := 0
  risk_level : String := ""
deriving DecidableEq

/-- One stored job's `result_state` slice; `business_impact` and
`validation_result` feed only the savings and discrepancy tallies, which
the risk aggregation never reads, and are elided. -/
structure BatchJobState where
  fraud_analysis : Option BatchFraudInfo := none
deriving DecidableEq

/-- One DB row: `result_state` may be missing or unparseable, in which
case the loop skips the row (batch_business.py lines 22-34). -/
abbrev BatchJob : Type := Option BatchJobState

/-- `risk_scores` accumulated by the loop (lines 41-43). -/
def batch_risk_scores (jobs : List BatchJob) : List ℚ :=
  jobs.filterMap (fun j => (j.bind (·.fraud_analysis)).map (·.risk_score))

/-- `high_risk_count` accumulated by the loop (lines 44-45). -/
def batch_high_risk_count (jobs : List BatchJob) : Nat :=
  (jobs.filterMap (fun j => j.bind (·.fraud_analysis))).countP
    (fun fa => fa.risk_level == "HIGH")

/-- `avg_risk = statistics.mean(risk_scores) if risk_scores else 0` (line 56). -/
def batch_avg_risk (jobs : List BatchJob) : ℚ :=
  let scores := batch_risk_scores jobs
  if scores.length = 0 then 0 else scores.sum / (scores.length : ℚ)

/-- `portfolio_risk_score` as computed at batch_business.py lines 58-64:
1.5× cluster modifier when more than 30% of the rows are HIGH risk, then
`min(100, …)`. -/
def portfolio_risk_score (jobs : List BatchJob) : ℚ :=
  let avg_risk := batch_avg_risk jobs
  let portfolio_risk_modifier : ℚ :=
    if jobs ≠ [] ∧ (batch_high_risk_count jobs : ℚ) / (jobs.length : ℚ) > 3/10 then 3/2
    else 1
  min 100 (avg_risk * portfolio_risk_modifier)

/-- The `portfolio_risk_score` field of the returned dict (line 71): the
line-64 value rounded to one decimal for presentation. -/
def analyze_batch_portfolio_field (jobs : List BatchJob) : ℚ :=
  round1 (portfolio_risk_score jobs)

/- ══ api/routes.py: per-record batch loop (lines 174-315) ══ -/

/-- The `predictive` block `analyze_provider` may return. -/
structure PredictiveBlock where
  risk_score : ℚ := 0
  factors : List String := []
  decay_probability : ℚ := 1/10

/-- A successful `analyze_provider` result, with the `.get` defaults of
routes.py lines 195-202 folded in. -/
structure AnalyzeResult where
  predictive : Option PredictiveBlock := none
  risk_score : ℚ := 0
  discrepancies : List String := []
  fraud_probability : ℚ := 10
  agent_thoughts : List String := []

/-- `detailed_agent_service.analyze_provider` either returns a result or
raises; the `try`/`except` of lines 192-245 is this sum. -/
inductive AnalysisOutcome where
  | ok (res : AnalyzeResult)
  | error (msg : String)

/-- The record dict the loop builds (feedback, locations and contact
numbers are random/presentational and elided; thoughts are kept as their
text strings). -/
structure RouteRecord where
  npi : String
  name : String
  specialty : String
  state : String
  risk_score : ℚ
  decay_prob : ℚ
  status : String
  conflicts : List String
  thoughts : List String

/-- Body of the per-record batch loop of routes.py (lines 176-278): the
`try`/`except` around `analyze_provider` with the fallback record on
exception, then the complaint-directory cross-reference adjustment. -/
def process_csv_row (row : CsvRow) (outcome : AnalysisOutcome)
    (provider_complaints : List Complaint) : RouteRecord :=
  let npi := row.NPI
  let name := pyStrip (row.First_Name ++ " " ++ row.Last_Name)
  let base : RouteRecord :=
    match outcome with
    | .ok res =>
        let rcd : ℚ × List String × ℚ :=
          match res.predictive with
          | some p => (p.risk_score, p.factors, p.decay_probability)
          | none => (res.risk_score, res.discrepancies, res.fraud_probability / 100)
        let status :=
          if rcd.1 > 70 then "Flagged"
          else if rcd.1 > 35 then "Review"
          else "Pending"
        { npi := npi, name := name, specialty := row.Specialty, state := row.State
          risk_score := rcd.1, decay_prob := rcd.2.2, status := status
          conflicts := rcd.2.1, thoughts := res.agent_thoughts }
    | .error e =>
        { npi := npi, name := name, specialty := row.Specialty, state := row.State
          risk_score := 50, decay_prob := 1/2, status := "Review"
          conflicts := ["Validation error: " ++ pyTake e 80]
          thoughts := ["API validation failed: " ++ pyTake e 100] }
  -- Complaint directory cross-reference (lines 247-278)
  if provider_complaints.isEmpty then base
  else
    let all_findings := base.thoughts ++ base.conflicts
    let complaint_result := cross_reference_complaints npi provider_complaints all_findings
    let boosted : RouteRecord :=
      if complaint_result.lambda_boost > 0 then
        let boost := complaint_result.lambda_boost
        let current_trust := 100 - base.risk_score
        let adjusted_trust := current_trust * (1 - boost)
        let new_risk := round1 (max 0 (min 100 (100 - adjusted_trust)))
        let new_status :=
          if new_risk > 70 then "Flagged"
          else if new_risk > 35 then "Review"
          else base.status
        { base with risk_score := new_risk, status := new_status }
      else base
    { boosted with
      thoughts := boosted.thoughts ++ complaint_result.thoughts.map (·.thought) }

/-- The whole batch loop: one record is appended per CSV row; the
`try`/`except` keeps every per-record failure inside the body. -/
def process_batch (rows : List CsvRow) (outcomeOf : CsvRow → AnalysisOutcome)
    (complaintsOf : String → List Complaint) : List RouteRecord :=
  rows.map (fun row => process_csv_row row (outcomeOf row) (complaintsOf row.NPI))

/- ══════════════════════ Theorems ══════════════════════ -/

theorem le_pyRound (m : ℤ) (x : ℚ) (h : (m : ℚ) ≤ x) : m ≤ pyRound x := by
  have hf : m ≤ ⌊x⌋ := Int.le_floor.mpr h
  unfold pyRound
  split_ifs <;> omega

theorem pyRound_le (x : ℚ) (n : ℤ) (h : x ≤ (n : ℚ)) : pyRound x ≤ n := by
  have hfl : ⌊x⌋ ≤ n := Int.floor_le_floor h |>.trans_eq (Int.floor_intCast n)
  unfold pyRound
  split_ifs with h1 h2 h3
  · exact hfl
  · have hx : (⌊x⌋ : ℚ) < x := by
      have : (0 : ℚ) < x - ⌊x⌋ := lt_trans (by norm_num) h2
      linarith
    have : ⌊x⌋ < n := by exact_mod_cast hx.trans_le h
    omega
  · exact hfl
  · have hx : (⌊x⌋ : ℚ) < x := by
      have hr : x - ⌊x⌋ = 1/2 := le_antisymm (not_lt.mp h2) (not_lt.mp h1)
      linarith
    have : ⌊x⌋ < n := by exact_mod_cast hx.trans_le h
    omega

theorem pyRound_intCast (n : ℤ) : pyRound (n : ℚ) = n := by
  unfold pyRound
  rw [Int.floor_intCast]
  norm_num

/-- `round1` keeps a value that lies in `[0, 100]` inside `[0, 100]`. -/
theorem round1_mem_Icc (x : ℚ) (h0 : 0 ≤ x) (h1 : x ≤ 100) :
    0 ≤ round1 x ∧ round1 x ≤ 100 := by
  have hlo : (0 : ℤ) ≤ pyRound (10 * x) := le_pyRound 0 _ (by positivity)
  have hhi : pyRound (10 * x) ≤ (1000 : ℤ) := pyRound_le _ 1000 (by push_cast; linarith)
  constructor
  · unfold round1
    positivity
  · unfold round1
    rw [div_le_iff₀ (by norm_num : (0:ℚ) < 10)]
    exact_mod_cast hhi.trans_eq (by norm_num)

/-- C1: for s1,s2,s3 in [0,1] and λ in [0,0.95], the trust score equals the
weighted formula clamped to [0,100] and rounded to one decimal, lies in
[0,100], and equals 100.0 at s1=s2=s3=1, λ=0. -/
theorem compute_trust_score_formula_bounds (s1 s2 s3 lam : ℚ)
    (h1 : 0 ≤ s1 ∧ s1 ≤ 1) (h2 : 0 ≤ s2 ∧ s2 ≤ 1) (h3 : 0 ≤ s3 ∧ s3 ≤ 1)
    (hl : 0 ≤ lam ∧ lam ≤ 19/20) :
    compute_trust_score s1 s2 s3 lam
      = round1 (max 0 (min 100
          (100 * ((40/100) * s1 + (30/100) * s2 + (30/100) * s3) * (1 - lam)))) ∧
    0 ≤ compute_trust_score s1 s2 s3 lam ∧
    compute_trust_score s1 s2 s3 lam ≤ 100 ∧
    compute_trust_score 1 1 1 0 = 100 := by
  have hclamp : ∀ T : ℚ, 0 ≤ max 0 (min 100 T) ∧ max 0 (min 100 T) ≤ 100 := by
    intro T
    exact ⟨le_max_left 0 _, max_le (by norm_num) ((min_le_left _ _))⟩
  obtain ⟨hc0, hc1⟩ := hclamp (100 * (W1 * s1 + W2 * s2 + W3 * s3) * (1 - lam))
  obtain ⟨hb0, hb1⟩ := round1_mem_Icc _ hc0 hc1
  refine ⟨rfl, hb0, hb1, ?_⟩
  have h100 : round1 100 = 100 := by
    have h : (10 : ℚ) * 100 = ((1000 : ℤ) : ℚ) := by norm_num
    unfold round1
    rw [h, pyRound_intCast]
    norm_num
  unfold compute_trust_score
  norm_num [W1, W2, W3, h100]

/-- Witness for C1 at s1=s2=s3=1/2, λ=1/10. -/
theorem compute_trust_score_formula_bounds_witness :
    0 ≤ compute_trust_score (1/2) (1/2) (1/2) (1/10) ∧
    compute_trust_score (1/2) (1/2) (1/2) (1/10) ≤ 100 ∧
    compute_trust_score 1 1 1 0 = 100 :=
  ⟨(compute_trust_score_formula_bounds (1/2) (1/2) (1/2) (1/10)
      (by norm_num) (by norm_num) (by norm_num) (by norm_num)).2.1,
   (compute_trust_score_formula_bounds (1/2) (1/2) (1/2) (1/10)
      (by norm_num) (by norm_num) (by norm_num) (by norm_num)).2.2.1,
   (compute_trust_score_formula_bounds (1/2) (1/2) (1/2) (1/10)
      (by norm_num) (by norm_num) (by norm_num) (by norm_num)).2.2.2⟩

/- ── Complaint cross-referencing lemmas ── -/

theorem classify_complaints_acc (fl : String) (cs : List Complaint) :
    (classify_complaints fl cs).2.2
      = 15/100 * ((classify_complaints fl cs).1.length : ℚ)
        + 8/100 * ((classify_complaints fl cs).2.1.length : ℚ) := by
  induction cs with
  | nil => simp [classify_complaints]
  | cons c rest ih =>
      simp only [classify_complaints]
      split_ifs with h
      · simp only [List.length_cons]
        push_cast
        linarith
      · simp only [List.length_cons]
        push_cast
        linarith

theorem round2_div100 (k : ℤ) : round2 ((k : ℚ) / 100) = (k : ℚ) / 100 := by
  unfold round2
  have h : (100 : ℚ) * ((k : ℚ) / 100) = (k : ℚ) := by field_simp
  rw [h, pyRound_intCast]

/-- The capped-and-rounded boost in closed form: the accumulator is a
multiple of 1/100, so `round(…, 2)` is the identity on it. -/
theorem cross_reference_boost_formula (npi : String) (cs : List Complaint)
    (findings : List String) :
    (cross_reference_complaints npi cs findings).lambda_boost
      = min (15/100 * ((cross_reference_complaints npi cs findings).confirmed.length : ℚ)
          + 8/100 * ((cross_reference_complaints npi cs findings).unconfirmed.length : ℚ))
          (1/2) := by
  unfold cross_reference_complaints
  split_ifs with h
  · simp
  · simp only
    rw [classify_complaints_acc]
    set c := ((classify_complaints (pyLower (String.intercalate " " findings)) cs).1.length : ℤ)
      with hc
    set u := ((classify_complaints (pyLower (String.intercalate " " findings)) cs).2.1.length : ℤ)
      with hu
    have e1 : (15:ℚ)/100 * ((classify_complaints (pyLower (String.intercalate " " findings)) cs).1.length : ℚ)
        + 8/100 * ((classify_complaints (pyLower (String.intercalate " " findings)) cs).2.1.length : ℚ)
        = ((15 * c + 8 * u : ℤ) : ℚ) / 100 := by
      rw [hc, hu]
      push_cast
      ring
    have e2 : (50 : ℚ)/100 = ((50 : ℤ) : ℚ) / 100 := by norm_num
    have e3 : (1 : ℚ)/2 = ((50 : ℤ) : ℚ) / 100 := by norm_num
    rw [e1, e2, e3]
    rw [min_div_div_right (by norm_num : (0:ℚ) ≤ 100)]
    rw [← Int.cast_min]
    exact round2_div100 _

theorem classify_complaints_confirmed_sound (fl : String) (cs : List Complaint)
    (x : Complaint) (hx : x ∈ (classify_complaints fl cs).1) :
    complaint_confirmed fl x = true := by
  induction cs with
  | nil => simp [classify_complaints] at hx
  | cons c rest ih =>
      simp only [classify_complaints] at hx
      by_cases h : complaint_confirmed fl c
      · rw [if_pos h] at hx
        rcases List.mem_cons.mp hx with rfl | hx2
        · exact h
        · exact ih hx2
      · rw [if_neg h] at hx
        exact ih hx

theorem classify_complaints_unconfirmed_complete (fl : String) (cs : List Complaint)
    (x : Complaint) (hx : x ∈ cs) (hconf : complaint_confirmed fl x = false) :
    x ∈ (classify_complaints fl cs).2.1 := by
  induction cs with
  | nil => simp at hx
  | cons c rest ih =>
      simp only [classify_complaints]
      rcases List.mem_cons.mp hx with rfl | hx2
      · rw [if_neg (by simp [hconf])]
        exact List.mem_cons_self _ _
      · by_cases h : complaint_confirmed fl c
        · rw [if_pos h]
          exact ih hx2
        · rw [if_neg h]
          exact List.mem_cons_of_mem _ (ih hx2)

/-- A field outside the keyword map (or `general`) has no keywords. -/
theorem FIELD_KEYWORDS_eq_nil (field : String)
    (h : field = "general" ∨ field ∉ ["phone", "address", "specialty", "name"]) :
    FIELD_KEYWORDS field = [] := by
  unfold FIELD_KEYWORDS
  rcases h with h | h
  · subst h
    rfl
  · have h1 : field ≠ "phone" := by
      intro e
      apply h
      rw [e]
      simp
    have h2 : field ≠ "address" := by
      intro e
      apply h
      rw [e]
      simp
    have h3 : field ≠ "specialty" := by
      intro e
      apply h
      rw [e]
      simp
    have h4 : field ≠ "name" := by
      intro e
      apply h
      rw [e]
      simp
    rw [if_neg h1, if_neg h2, if_neg h3, if_neg h4]
    split_ifs <;> rfl

/-- C4: for every complaint list and findings text, the lambda boost equals
min(0.15·#confirmed + 0.08·#unconfirmed, 0.50); an empty complaint list is
a no-op: zero boost, no confirmed or unconfirmed entries, no thoughts. -/
theorem cross_reference_complaints_boost_cap (npi : String) (cs : List Complaint)
    (findings : List String) :
    (cross_reference_complaints npi cs findings).lambda_boost
      = min (15/100 * ((cross_reference_complaints npi cs findings).confirmed.length : ℚ)
          + 8/100 * ((cross_reference_complaints npi cs findings).unconfirmed.length : ℚ))
          (1/2) ∧
    cross_reference_complaints npi [] findings
      = { lambda_boost := 0, confirmed := [], unconfirmed := [], thoughts := [] } :=
  ⟨cross_reference_boost_formula npi cs findings, rfl⟩

/-- C9: a complaint whose field is `general`, or any field outside the
keyword map, is always classified unconfirmed (never confirmed), whatever
the findings text, and the boost accumulates 0.08 per unconfirmed item. -/
theorem general_complaint_never_confirmed (npi : String) (cs : List Complaint)
    (findings : List String) (c : Complaint) (hmem : c ∈ cs)
    (hfield : c.field = "general" ∨ c.field ∉ ["phone", "address", "specialty", "name"]) :
    c ∈ (cross_reference_complaints npi cs findings).unconfirmed ∧
    c ∉ (cross_reference_complaints npi cs findings).confirmed ∧
    (cross_reference_complaints npi cs findings).lambda_boost
      = min (15/100 * ((cross_reference_complaints npi cs findings).confirmed.length : ℚ)
          + 8/100 * ((cross_reference_complaints npi cs findings).unconfirmed.length : ℚ))
          (1/2) := by
  have hkw : FIELD_KEYWORDS c.field = [] := FIELD_KEYWORDS_eq_nil c.field hfield
  have hne : ¬cs.isEmpty := by
    cases cs with
    | nil => simp at hmem
    | cons a l => simp
  have hconf : ∀ fl, complaint_confirmed fl c = false := by
    intro fl
    unfold complaint_confirmed
    rw [hkw]
    rfl
  refine ⟨?_, ?_, cross_reference_boost_formula npi cs findings⟩
  · unfold cross_reference_complaints
    rw [if_neg hne]
    exact classify_complaints_unconfirmed_complete _ cs c hmem (hconf _)
  · unfold cross_reference_complaints
    rw [if_neg hne]
    intro habs
    have := classify_complaints_confirmed_sound _ cs c habs
    rw [hconf] at this
    exact Bool.false_ne_true this

/-- Witness for C9: one `general` complaint on file. -/
theorem general_complaint_never_confirmed_witness :
    ({ field := "general", value := "v", date := "", notes := "" } : Complaint)
      ∈ (cross_reference_complaints "1234567890"
          [{ field := "general", value := "v", date := "", notes := "" }]
          ["✗ Name MISMATCH"]).unconfirmed ∧
    ({ field := "general", value := "v", date := "", notes := "" } : Complaint)
      ∉ (cross_reference_complaints "1234567890"
          [{ field := "general", value := "v", date := "", notes := "" }]
          ["✗ Name MISMATCH"]).confirmed ∧
    (cross_reference_complaints "1234567890"
        [{ field := "general", value := "v", date := "", notes := "" }]
        ["✗ Name MISMATCH"]).lambda_boost
      = min (15/100 * ((cross_reference_complaints "1234567890"
            [{ field := "general", value := "v", date := "", notes := "" }]
            ["✗ Name MISMATCH"]).confirmed.length : ℚ)
          + 8/100 * ((cross_reference_complaints "1234567890"
            [{ field := "general", value := "v", date := "", notes := "" }]
            ["✗ Name MISMATCH"]).unconfirmed.length : ℚ))
          (1/2) :=
  general_complaint_never_confirmed "1234567890" _ ["✗ Name MISMATCH"] _
    (List.mem_singleton.mpr rfl) (Or.inl rfl)

/-- C10: in identity scoring of a found registry record, the state check
contributes 1.0 exactly when both the submitted and the registry state are
non-empty and equal ignoring case; with either side empty it contributes
0.0 and the state-mismatch finding is emitted. -/
theorem state_check_empty_is_mismatch (ratio : String → String → ℚ)
    (npi : String) (row : CsvRow) (rec : NppesRecord) :
    ((state_check row (mkNppesData rec)).1 = 1
      ↔ (row.State ≠ "" ∧ (mkNppesData rec).state ≠ ""
          ∧ pyUpper row.State = pyUpper (mkNppesData rec).state)) ∧
    ((row.State = "" ∨ (mkNppesData rec).state = "") →
      (state_check row (mkNppesData rec)).1 = 0 ∧
      ("✗ State mismatch: CSV '" ++ row.State ++ "' vs NPPES '"
          ++ (mkNppesData rec).state ++ "'")
        ∈ (validate_nppes ratio npi row (.found rec)).findings) := by
  constructor
  · unfold state_check
    split_ifs with h
    · simp [h]
    · simp only [h, iff_false]
      norm_num
  · intro hempty
    have hcond : ¬(row.State ≠ "" ∧ (mkNppesData rec).state ≠ ""
        ∧ pyUpper row.State = pyUpper (mkNppesData rec).state) := by
      rintro ⟨ha, hb, -⟩
      rcases hempty with he | he
      · exact ha he
      · exact hb he
    have h4 : state_check row (mkNppesData rec)
        = (0, ["✗ State mismatch: CSV '" ++ row.State ++ "' vs NPPES '"
            ++ (mkNppesData rec).state ++ "'"]) := by
      unfold state_check
      rw [if_neg hcond]
    refine ⟨by rw [h4], ?_⟩
    show _ ∈ (validate_nppes ratio npi row (.found rec)).findings
    unfold validate_nppes
    simp only [h4, List.mem_append, List.mem_singleton]
    tauto

/-- Witness for C10: submitted state present, registry record with no
address block (registry state empty). -/
theorem state_check_empty_is_mismatch_witness :
    (state_check { State := "NY" } (mkNppesData { })).1 = 0 ∧
    ("✗ State mismatch: CSV '" ++ "NY" ++ "' vs NPPES '" ++ (mkNppesData { }).state ++ "'")
      ∈ (validate_nppes (fun _ _ => 1) "1234567890" { State := "NY" }
          (.found { })).findings :=
  (state_check_empty_is_mismatch (fun _ _ => 1) "1234567890" { State := "NY" } { }).2
    (Or.inr rfl)

/-- C6: the fraud assessor's score is the rule sum 90·[OIG] + 60·[invalid
NPI] + 25·[inconsistent]; the level is HIGH iff the sum is ≥ 80, MEDIUM iff
it is in [20, 80), and communication_required exactly on HIGH. -/
theorem fraud_agent_node_rules (vr : ValidationFlags) :
    (fraud_agent_node (some vr)).fraud_analysis.risk_score
      = (if vr.oig_excluded then 90 else 0) + (if !vr.npi_valid then 60 else 0)
        + (if !vr.is_consistent then 25 else 0) ∧
    ((fraud_agent_node (some vr)).fraud_analysis.risk_level = FraudRiskLevel.HIGH
      ↔ 80 ≤ (fraud_agent_node (some vr)).fraud_analysis.risk_score) ∧
    ((fraud_agent_node (some vr)).fraud_analysis.risk_level = FraudRiskLevel.MEDIUM
      ↔ (20 ≤ (fraud_agent_node (some vr)).fraud_analysis.risk_score
          ∧ (fraud_agent_node (some vr)).fraud_analysis.risk_score < 80)) ∧
    ((fraud_agent_node (some vr)).communication_required = true
      ↔ (fraud_agent_node (some vr)).fraud_analysis.risk_level = FraudRiskLevel.HIGH) := by
  obtain ⟨nv, oig, cons⟩ := vr
  cases nv <;> cases oig <;> cases cons <;>
    refine ⟨by norm_num [fraud_agent_node], ?_, ?_, ?_⟩ <;>
    norm_num [fraud_agent_node] <;>
    simp_all [FraudRiskLevel.HIGH, FraudRiskLevel.MEDIUM]

/- ── String-shape lemmas for finding strings ── -/

theorem toList_append (a b : String) : (a ++ b).toList = a.toList ++ b.toList :=
  String.data_append a b

theorem listIsInfix_append_of_right (n ys : List Char) (h : listIsInfix n ys = true) :
    ∀ xs : List Char, listIsInfix n (xs ++ ys) = true
  | [] => h
  | x :: xs => by
      show listIsInfix n (x :: (xs ++ ys)) = true
      unfold listIsInfix
      rw [Bool.or_eq_true]
      exact Or.inr (listIsInfix_append_of_right n ys h xs)

/-- A string whose first character is neither marker gets verdict "warn". -/
theorem verdictOf_warn_of_head (s : String) (c : Char) (rest : List Char)
    (h : s.toList = c :: rest) (h1 : ('✓' == c) = false) (h2 : ('✗' == c) = false) :
    verdictOf s = "warn" := by
  unfold verdictOf strStartsWith
  have e1 : listIsPrefix "✓".toList s.toList = false := by
    rw [h]
    show (('✓' == c) && listIsPrefix [] rest) = false
    rw [h1]
    rfl
  have e2 : listIsPrefix "✗".toList s.toList = false := by
    rw [h]
    show (('✗' == c) && listIsPrefix [] rest) = false
    rw [h2]
    rfl
  rw [e1, e2]
  rfl

/-- C3 counterexample: at an explicit not-found lookup, the NOT FOUND
finding exists but carries no fail marker, so its derived verdict is
"warn" — no fail-verdict finding containing "NOT FOUND" exists. -/
theorem not_found_fail_finding_counterexample :
    (validate_nppes (fun _ _ => 1) "9912345678" { } .notFound).s1 = 0 ∧
    (validate_nppes (fun _ _ => 1) "9912345678" { } .notFound).lambda_penalty = 9/10 ∧
    (∃ f ∈ (validate_nppes (fun _ _ => 1) "9912345678" { } .notFound).findings,
      strContains f "NOT FOUND" = true) ∧
    ¬(∃ f ∈ (validate_nppes (fun _ _ => 1) "9912345678" { } .notFound).findings,
      strContains f "NOT FOUND" = true ∧ verdictOf f = "fail") := by
  refine ⟨rfl, rfl, ⟨"NPI " ++ "9912345678" ++ " NOT FOUND in NPPES registry",
    List.mem_singleton.mpr rfl, by decide⟩, ?_⟩
  rintro ⟨f, hf, -, hv⟩
  have hfe : f = "NPI " ++ "9912345678" ++ " NOT FOUND in NPPES registry" :=
    List.mem_singleton.mp hf
  rw [hfe] at hv
  have : verdictOf ("NPI " ++ "9912345678" ++ " NOT FOUND in NPPES registry") = "warn" := by
    decide
  rw [this] at hv
  exact absurd hv (by decide)

/-- C3 (amended): a not-found lookup yields s1 = 0, λ = 0.9 and exactly the
finding "NPI <npi> NOT FOUND in NPPES registry", which contains "NOT FOUND"
but derives verdict "warn" (the source omits the ✗ marker on it); a lookup
error yields s1 = 0.3, λ = 0 and one warn finding — an error is never
treated as not-found (its scores differ from the not-found ones). -/
theorem not_found_vs_error_contract (ratio : String → String → ℚ)
    (npi msg : String) (row : CsvRow) :
    (validate_nppes ratio npi row .notFound).s1 = 0 ∧
    (validate_nppes ratio npi row .notFound).lambda_penalty = 9/10 ∧
    (validate_nppes ratio npi row .notFound).findings
      = ["NPI " ++ npi ++ " NOT FOUND in NPPES registry"] ∧
    strContains ("NPI " ++ npi ++ " NOT FOUND in NPPES registry") "NOT FOUND" = true ∧
    verdictOf ("NPI " ++ npi ++ " NOT FOUND in NPPES registry") = "warn" ∧
    (validate_nppes ratio npi row (.apiError msg)).s1 = 3/10 ∧
    (validate_nppes ratio npi row (.apiError msg)).lambda_penalty = 0 ∧
    (validate_nppes ratio npi row (.apiError msg)).findings
      = ["NPPES API error: " ++ pyTake msg 80] ∧
    verdictOf ("NPPES API error: " ++ pyTake msg 80) = "warn" := by
  refine ⟨rfl, rfl, rfl, ?_, ?_, rfl, rfl, rfl, ?_⟩
  · unfold strContains
    rw [toList_append]
    exact listIsInfix_append_of_right _ _ (by decide) _
  · apply verdictOf_warn_of_head _ 'N' (("PI " ++ npi ++ " NOT FOUND in NPPES registry").toList)
    · rw [show ("NPI " ++ npi ++ " NOT FOUND in NPPES registry")
          = "N" ++ ("PI " ++ npi ++ " NOT FOUND in NPPES registry") by
        simp [← String.append_assoc]]
      rw [toList_append]
      rfl
    · decide
    · decide
  · apply verdictOf_warn_of_head _ 'N' (("PPES API error: " ++ pyTake msg 80).toList)
    · rw [show ("NPPES API error: " ++ pyTake msg 80)
          = "N" ++ ("PPES API error: " ++ pyTake msg 80) by
        simp [← String.append_assoc]]
      rw [toList_append]
      rfl
    · decide
    · decide

/- ── λ composition lemmas ── -/

theorem single_provider_lambda_eq (ratio : String → String → ℚ)
    (parse : String → Option ℤ) (today : ℤ) (complaintDir : String → List Complaint)
    (row : CsvRow) (lookup : NppesLookup) (geo : GeoLookup) (med : MedicareLookup) :
    (validate_single_provider ratio parse today complaintDir row lookup geo med).lambda_penalty
      = compose_lambda (validate_nppes ratio row.NPI row lookup).lambda_penalty
          (validate_reachability row (validate_nppes ratio row.NPI row lookup).nppes_data
            geo med).geocoder_match
          (compute_reputation (validate_nppes ratio row.NPI row lookup).nppes_data row).findings
          (cross_reference_complaints row.NPI (complaintDir row.NPI)
            ((validate_nppes ratio row.NPI row lookup).findings
              ++ (validate_reachability row
                    (validate_nppes ratio row.NPI row lookup).nppes_data geo med).findings
              ++ (compute_reputation
                    (validate_nppes ratio row.NPI row lookup).nppes_data row).findings)).lambda_boost :=
  rfl

/-- The registry-side λ contribution: 0.9 exactly on not-found, 0.5 exactly
on a deactivated found record, 0 otherwise — not-found and deactivated are
mutually exclusive (the not-found branch returns early). -/
theorem validate_nppes_lambda_cases (ratio : String → String → ℚ) (npi : String)
    (row : CsvRow) (lookup : NppesLookup) :
    (validate_nppes ratio npi row lookup).lambda_penalty
      = match lookup with
        | .apiError _ => 0
        | .notFound => 9/10
        | .found rec =>
            if rec.basic.status ≠ "" ∧ pyUpper rec.basic.status = "D" then 1/2 else 0 := by
  cases lookup with
  | apiError msg => rfl
  | notFound => rfl
  | found rec =>
      simp only [validate_nppes, decide_eq_true_eq]
      split_ifs
      · exact max_eq_right (by norm_num)
      · rfl

theorem compose_lambda_eq_max (lam0 : ℚ) (g : Bool) (reps : List String) (boost : ℚ)
    (h0 : 0 ≤ lam0) :
    compose_lambda lam0 g reps boost
      = min (max lam0 (if (!g && reps.any
            (fun f => strContains f "License state" && strContains f "differs"))
          then (1/2 : ℚ) else 0) + boost) (95/100) := by
  unfold compose_lambda
  split_ifs with h
  · rfl
  · rw [max_eq_left h0]

/-- C2 (amended): the λ passed to the trust score is
min(max(registry penalty, joint geocoder/license penalty) + complaint
boost, 0.95): the registry penalty (0.9 not-found, 0.5 deactivated —
mutually exclusive) and the 0.5 joint penalty combine by maximum, not by
sum; only the complaint boost is added before the 0.95 cap. -/
theorem single_provider_lambda_max_form (ratio : String → String → ℚ)
    (parse : String → Option ℤ) (today : ℤ) (complaintDir : String → List Complaint)
    (row : CsvRow) (lookup : NppesLookup) (geo : GeoLookup) (med : MedicareLookup) :
    (validate_single_provider ratio parse today complaintDir row lookup geo med).lambda_penalty
      = min (max (validate_nppes ratio row.NPI row lookup).lambda_penalty
            (if (!(validate_reachability row (validate_nppes ratio row.NPI row lookup).nppes_data
                    geo med).geocoder_match
                && (compute_reputation (validate_nppes ratio row.NPI row lookup).nppes_data
                      row).findings.any
                  (fun f => strContains f "License state" && strContains f "differs"))
              then (1/2 : ℚ) else 0)
          + (cross_reference_complaints row.NPI (complaintDir row.NPI)
              ((validate_nppes ratio row.NPI row lookup).findings
                ++ (validate_reachability row
                      (validate_nppes ratio row.NPI row lookup).nppes_data geo med).findings
                ++ (compute_reputation
                      (validate_nppes ratio row.NPI row lookup).nppes_data row).findings)).lambda_boost)
          (95/100) ∧
    (validate_nppes ratio row.NPI row lookup).lambda_penalty
      = match lookup with
        | .apiError _ => 0
        | .notFound => 9/10
        | .found rec =>
            if rec.basic.status ≠ "" ∧ pyUpper rec.basic.status = "D" then 1/2 else 0 := by
  have h0 : 0 ≤ (validate_nppes ratio row.NPI row lookup).lambda_penalty := by
    rw [validate_nppes_lambda_cases]
    cases lookup with
    | apiError msg => norm_num
    | notFound => norm_num
    | found rec =>
        show (0:ℚ) ≤ if _ then _ else _
        split_ifs <;> norm_num
  exact ⟨(single_provider_lambda_eq ratio parse today complaintDir row lookup geo med).trans
      (compose_lambda_eq_max _ _ _ _ h0),
    validate_nppes_lambda_cases ratio row.NPI row lookup⟩

/-- C2 counterexample: a deactivated registry record (contribution 0.5)
together with the triggered joint geocoder-failure/license-mismatch
condition (contribution 0.5) and no complaints yields λ = 0.5 — the code
takes the maximum of the two contributions — while the claimed sum
0.5 + 0.5, capped at 0.95, would be 0.95.  The first three conjuncts
establish that both contributions really are triggered at this input. -/
theorem lambda_sum_counterexample :
    (validate_nppes (fun _ _ => 1) "1234567890"
        { NPI := "1234567890", First_Name := "A", Last_Name := "B",
          Credential := "MD", Specialty := "Cardiology", State := "NY" }
        (.found { basic := { first_name := "A", last_name := "B",
                             credential := "MD", status := "D" }
                  taxonomies := [{ primary := true, desc := "Cardiology",
                                   license := "L1", state := "CA" }] })).lambda_penalty
      = 1/2 ∧
    (validate_reachability
        { NPI := "1234567890", First_Name := "A", Last_Name := "B",
          Credential := "MD", Specialty := "Cardiology", State := "NY" }
        (validate_nppes (fun _ _ => 1) "1234567890"
          { NPI := "1234567890", First_Name := "A", Last_Name := "B",
            Credential := "MD", Specialty := "Cardiology", State := "NY" }
          (.found { basic := { first_name := "A", last_name := "B",
                               credential := "MD", status := "D" }
                    taxonomies := [{ primary := true, desc := "Cardiology",
                                     license := "L1", state := "CA" }] })).nppes_data
        (.ok []) (.apiError "timeout")).geocoder_match = false ∧
    (compute_reputation
        (validate_nppes (fun _ _ => 1) "1234567890"
          { NPI := "1234567890", First_Name := "A", Last_Name := "B",
            Credential := "MD", Specialty := "Cardiology", State := "NY" }
          (.found { basic := { first_name := "A", last_name := "B",
                               credential := "MD", status := "D" }
                    taxonomies := [{ primary := true, desc := "Cardiology",
                                     license := "L1", state := "CA" }] })).nppes_data
        { NPI := "1234567890", First_Name := "A", Last_Name := "B",
          Credential := "MD", Specialty := "Cardiology", State := "NY" }).findings.any
      (fun f => strContains f "License state" && strContains f "differs") = true ∧
    (validate_single_provider (fun _ _ => 1) (fun _ => none) 0 (fun _ => [])
        { NPI := "1234567890", First_Name := "A", Last_Name := "B",
          Credential := "MD", Specialty := "Cardiology", State := "NY" }
        (.found { basic := { first_name := "A", last_name := "B",
                             credential := "MD", status := "D" }
                  taxonomies := [{ primary := true, desc := "Cardiology",
                                   license := "L1", state := "CA" }] })
        (.ok []) (.apiError "timeout")).lambda_penalty = 1/2 ∧
    spec_lambda_sum false true true 0 = 19/20 ∧
    ((1:ℚ)/2) ≠ 19/20 := by
  have h1 : (validate_nppes (fun _ _ => 1) "1234567890"
      { NPI := "1234567890", First_Name := "A", Last_Name := "B",
        Credential := "MD", Specialty := "Cardiology", State := "NY" }
      (.found { basic := { first_name := "A", last_name := "B",
                           credential := "MD", status := "D" }
                taxonomies := [{ primary := true, desc := "Cardiology",
                                 license := "L1", state := "CA" }] })).lambda_penalty
      = 1/2 := by
    simp only [validate_nppes, decide_eq_true_eq]
    rw [if_pos (show ("D" : String) ≠ "" ∧ pyUpper "D" = "D" by decide)]
    exact max_eq_right (by norm_num)
  refine ⟨h1, rfl, by decide, ?_, by norm_num [spec_lambda_sum], by norm_num⟩
  rw [single_provider_lambda_eq]
  have h4 : ∀ fs : List String,
      (cross_reference_complaints "1234567890" [] fs).lambda_boost = 0 := fun _ => rfl
  rw [h1, h4]
  rw [compose_lambda_eq_max _ _ _ _ (by norm_num)]
  split_ifs <;> norm_num

/- ── Decay heuristic: the dead unparseable-date branch ── -/

theorem round2_eval_15 : round2 (3/20) = 3/20 := by
  rw [show (3:ℚ)/20 = ((15 : ℤ) : ℚ) / 100 by norm_num]
  exact round2_div100 15

/-- `round(0.225, 2)` on the exact rational: banker's rounding gives 0.22. -/
theorem round2_eval_225 : round2 (9/40) = 11/50 := by
  unfold round2 pyRound
  have hfl : ⌊(100 : ℚ) * (9/40)⌋ = 22 := by norm_num
  rw [hfl]
  norm_num

/-- C5: on a non-empty date string that parses with none of the formats,
the code's recency factor stays 1.0 (the `for … else` leaves
`updated_dt = None` and the `except` branch that would set 1.5 is dead
code for string input), so the decay probability for Internal Medicine in
a low-mobility state is 0.15; the spec's contract (unparseable → 1.5,
"never treated as fresh") would give 0.22. -/
theorem decay_unparseable_date_divergence (parse : String → Option ℤ) (today : ℤ)
    (hp : parse (pyTake "not-a-date" 10) = none) :
    compute_decay_probability parse today "Internal Medicine" "not-a-date" "" = 15/100 ∧
    spec_decay_probability parse today "Internal Medicine" "not-a-date" "" = 22/100 ∧
    (15/100 : ℚ) ≠ 22/100 := by
  refine ⟨?_, ?_, by norm_num⟩
  · simp only [compute_decay_probability, hp, SPECIALTY_DECAY_RATES, HIGH_MOBILITY_STATES]
    norm_num
    exact round2_eval_15
  · simp only [spec_decay_probability, hp, SPECIALTY_DECAY_RATES, HIGH_MOBILITY_STATES]
    norm_num
    rw [if_neg (show ¬("not-a-date" = "") by decide)]
    rw [min_eq_left (by norm_num)]
    exact round2_eval_225

/-- Witness for C5 with the always-failing parse. -/
theorem decay_unparseable_date_divergence_witness :
    compute_decay_probability (fun _ => none) 0 "Internal Medicine" "not-a-date" "" = 15/100 ∧
    spec_decay_probability (fun _ => none) 0 "Internal Medicine" "not-a-date" "" = 22/100 :=
  ⟨(decay_unparseable_date_divergence (fun _ => none) 0 rfl).1,
   (decay_unparseable_date_divergence (fun _ => none) 0 rfl).2.1⟩

/- ── Batch aggregation lemmas ── -/

theorem batch_sum_le_of_level_bound (infos : List BatchFraudInfo)
    (hb : ∀ i ∈ infos, 0 ≤ i.risk_score ∧ i.risk_score ≤ 175
      ∧ (i.risk_level ≠ "HIGH" → i.risk_score ≤ 60)) :
    (infos.map (·.risk_score)).sum
      ≤ 60 * (infos.length : ℚ)
        + 115 * ((infos.countP (fun i => i.risk_level == "HIGH")) : ℚ) := by
  induction infos with
  | nil => simp
  | cons i rest ih =>
      have hi := hb i (List.mem_cons_self i rest)
      have hrest := ih (fun j hj => hb j (List.mem_cons_of_mem _ hj))
      simp only [List.map_cons, List.sum_cons, List.length_cons, List.countP_cons]
      by_cases h : i.risk_level == "HIGH"
      · rw [if_pos h]
        push_cast
        linarith [hi.2.1]
      · rw [if_neg h]
        have hle : i.risk_score ≤ 60 := hi.2.2 (by simpa using h)
        push_cast
        linarith

/-- C7: for a nonempty batch in which every record carries a fraud
analysis consistent with the assessor's rules (score in [0,175], non-HIGH
scores at most 60), the portfolio risk score is min(100, avg·1.5) when
more than 30% of the batch is HIGH and exactly the unmodified average
otherwise. -/
theorem portfolio_risk_cluster_rule (infos : List BatchFraudInfo)
    (hne : infos ≠ [])
    (hb : ∀ i ∈ infos, 0 ≤ i.risk_score ∧ i.risk_score ≤ 175
      ∧ (i.risk_level ≠ "HIGH" → i.risk_score ≤ 60)) :
    portfolio_risk_score (infos.map (fun i => some { fraud_analysis := some i }))
      = if ((infos.countP (fun i => i.risk_level == "HIGH")) : ℚ) / (infos.length : ℚ)
            > 3/10
        then min 100 ((infos.map (·.risk_score)).sum / (infos.length : ℚ) * (3/2))
        else (infos.map (·.risk_score)).sum / (infos.length : ℚ) := by
  have hn : (0 : ℚ) < (infos.length : ℚ) := by
    have : 0 < infos.length := List.length_pos.mpr hne
    exact_mod_cast this
  have hscores : ∀ l : List BatchFraudInfo,
      batch_risk_scores (l.map (fun i => some { fraud_analysis := some i }))
        = l.map (·.risk_score) := by
    intro l
    induction l with
    | nil => rfl
    | cons a t ih =>
        simp only [batch_risk_scores, List.map_cons, List.filterMap_cons] at ih ⊢
        simpa using ih
  have hcount : ∀ l : List BatchFraudInfo,
      batch_high_risk_count (l.map (fun i => some { fraud_analysis := some i }))
        = l.countP (fun i => i.risk_level == "HIGH") := by
    intro l
    induction l with
    | nil => rfl
    | cons a t ih =>
        simp only [batch_high_risk_count, List.map_cons, List.filterMap_cons] at ih ⊢
        rw [List.filterMap_map] at ih
        simp [List.countP_cons, ih]
  have hlen : (infos.map (fun i => (some { fraud_analysis := some i } : BatchJob))).length
      = infos.length := List.length_map _ _
  have hmapne : infos.map (fun i => (some { fraud_analysis := some i } : BatchJob)) ≠ [] := by
    simpa using hne
  have havg : batch_avg_risk (infos.map (fun i => some { fraud_analysis := some i }))
      = (infos.map (·.risk_score)).sum / (infos.length : ℚ) := by
    unfold batch_avg_risk
    rw [hscores]
    rw [if_neg (by
      rw [List.length_map]
      exact fun h => hne (List.length_eq_zero.mp h))]
    rw [List.length_map]
  simp only [portfolio_risk_score]
  rw [havg, hcount, hlen]
  by_cases hfrac : ((infos.countP (fun i => i.risk_level == "HIGH")) : ℚ)
      / (infos.length : ℚ) > 3/10
  · rw [if_pos ⟨hmapne, hfrac⟩, if_pos hfrac]
  · rw [if_neg (fun hc => hfrac hc.2), if_neg hfrac]
    rw [mul_one]
    refine min_eq_right ?_
    have hsum := batch_sum_le_of_level_bound infos hb
    have hcle : ((infos.countP (fun i => i.risk_level == "HIGH")) : ℚ)
        ≤ 3/10 * (infos.length : ℚ) := by
      have hle := not_lt.mp hfrac
      calc ((infos.countP (fun i => i.risk_level == "HIGH")) : ℚ)
          = ((infos.countP (fun i => i.risk_level == "HIGH")) : ℚ)
            / (infos.length : ℚ) * (infos.length : ℚ) := by
            field_simp
        _ ≤ 3/10 * (infos.length : ℚ) :=
            mul_le_mul_of_nonneg_right hle (le_of_lt hn)
    rw [div_le_iff₀ hn]
    calc (infos.map (·.risk_score)).sum
        ≤ 60 * (infos.length : ℚ)
          + 115 * ((infos.countP (fun i => i.risk_level == "HIGH")) : ℚ) := hsum
      _ ≤ 60 * (infos.length : ℚ) + 115 * (3/10 * (infos.length : ℚ)) := by linarith
      _ ≤ 100 * (infos.length : ℚ) := by linarith

/-- Witness for C7: two records, one HIGH (fraction 1/2 > 0.3). -/
theorem portfolio_risk_cluster_rule_witness :
    portfolio_risk_score
        (([{ risk_score := 90, risk_level := "HIGH" },
           { risk_score := 0, risk_level := "LOW" }] : List BatchFraudInfo).map
          (fun i => some { fraud_analysis := some i }))
      = if ((([{ risk_score := 90, risk_level := "HIGH" },
               { risk_score := 0, risk_level := "LOW" }] : List BatchFraudInfo).countP
              (fun i => i.risk_level == "HIGH")) : ℚ)
            / ((([{ risk_score := 90, risk_level := "HIGH" },
                  { risk_score := 0, risk_level := "LOW" }] : List BatchFraudInfo).length) : ℚ)
            > 3/10
        then min 100 ((([{ risk_score := 90, risk_level := "HIGH" },
                { risk_score := 0, risk_level := "LOW" }] : List BatchFraudInfo).map
              (·.risk_score)).sum
            / ((([{ risk_score := 90, risk_level := "HIGH" },
                  { risk_score := 0, risk_level := "LOW" }] : List BatchFraudInfo).length) : ℚ)
            * (3/2))
        else (([{ risk_score := 90, risk_level := "HIGH" },
               { risk_score := 0, risk_level := "LOW" }] : List BatchFraudInfo).map
            (·.risk_score)).sum
          / ((([{ risk_score := 90, risk_level := "HIGH" },
                { risk_score := 0, risk_level := "LOW" }] : List BatchFraudInfo).length) : ℚ) :=
  portfolio_risk_cluster_rule
    [{ risk_score := 90, risk_level := "HIGH" }, { risk_score := 0, risk_level := "LOW" }]
    (List.cons_ne_nil _ _)
    (by
      intro i hi
      rcases List.mem_cons.mp hi with rfl | hi2
      · exact ⟨by norm_num, by norm_num, fun hlev => absurd rfl hlev⟩
      · rcases List.mem_cons.mp hi2 with rfl | h3
        · exact ⟨le_refl 0, by norm_num, fun _ => by norm_num⟩
        · simp at h3)

/- ── routes.py batch loop ── -/

theorem round1_intCast (n : ℤ) : round1 ((n : ℚ)) = (n : ℚ) := by
  unfold round1
  rw [show (10 : ℚ) * (n : ℚ) = ((10 * n : ℤ) : ℚ) by push_cast; ring, pyRound_intCast]
  push_cast
  ring

theorem classify_none_confirmed (fl : String) (cs : List Complaint)
    (h : ∀ c ∈ cs, complaint_confirmed fl c = false) :
    (classify_complaints fl cs).1 = [] ∧ (classify_complaints fl cs).2.1 = cs := by
  induction cs with
  | nil => exact ⟨rfl, rfl⟩
  | cons c rest ih =>
      have hc := h c (List.mem_cons_self c rest)
      obtain ⟨ih1, ih2⟩ := ih (fun x hx => h x (List.mem_cons_of_mem _ hx))
      simp only [classify_complaints]
      simp [hc, ih1, ih2]

/-- C8 (amended): a record whose analysis raised still appears in the
output; with no complaints on file it keeps status "Review", risk 50 and
the error text in its conflicts (with complaints on file the boost may
raise the risk and re-bucket the status); and the batch loop emits exactly
one output record per submitted row. -/
theorem errored_record_review_default (row : CsvRow) (e : String)
    (rows : List CsvRow) (outcomeOf : CsvRow → AnalysisOutcome)
    (complaintsOf : String → List Complaint) :
    (process_csv_row row (.error e) []).status = "Review" ∧
    (process_csv_row row (.error e) []).risk_score = 50 ∧
    ("Validation error: " ++ pyTake e 80) ∈ (process_csv_row row (.error e) []).conflicts ∧
    (process_batch rows outcomeOf complaintsOf).length = rows.length :=
  ⟨rfl, rfl, List.mem_singleton.mpr rfl, List.length_map _ _⟩

/-- C8 counterexample: a record whose analysis raised but whose provider
has six `general` complaints on file comes out with risk 74 and status
"Flagged" — not risk 50 and status "Review": the complaint boost
(6 × 0.08 = 0.48) is applied on top of the fallback risk 50. -/
theorem errored_record_boost_counterexample :
    (process_csv_row { NPI := "1", First_Name := "J", Last_Name := "D" }
        (.error "boom") (List.replicate 6 { field := "general" })).risk_score = 74 ∧
    (process_csv_row { NPI := "1", First_Name := "J", Last_Name := "D" }
        (.error "boom") (List.replicate 6 { field := "general" })).status = "Flagged" ∧
    (74 : ℚ) ≠ 50 ∧ ("Flagged" : String) ≠ "Review" := by
  have hgen : ∀ (fl : String), ∀ c ∈ List.replicate 6 ({ field := "general" } : Complaint),
      complaint_confirmed fl c = false := by
    intro fl c hc
    have he := List.eq_of_mem_replicate hc
    subst he
    rfl
  have hcr : ∀ fs : List String,
      (cross_reference_complaints "1" (List.replicate 6 { field := "general" }) fs).confirmed
          = []
      ∧ (cross_reference_complaints "1" (List.replicate 6 { field := "general" }) fs).unconfirmed
          = List.replicate 6 { field := "general" } := by
    intro fs
    unfold cross_reference_complaints
    rw [if_neg (by decide)]
    exact classify_none_confirmed _ _ (hgen _)
  have hboost : ∀ fs : List String,
      (cross_reference_complaints "1" (List.replicate 6 { field := "general" }) fs).lambda_boost
        = 48/100 := by
    intro fs
    rw [cross_reference_boost_formula, (hcr fs).1, (hcr fs).2]
    rw [show ((List.replicate 6 ({ field := "general" } : Complaint)).length : ℚ) = 6 by norm_num]
    rw [show (([] : List Complaint).length : ℚ) = 0 by norm_num]
    rw [min_eq_left (by norm_num)]
    norm_num
  have hrisk : (process_csv_row { NPI := "1", First_Name := "J", Last_Name := "D" }
      (.error "boom") (List.replicate 6 { field := "general" })).risk_score = 74 := by
    simp only [process_csv_row]
    rw [if_neg (by decide :
      ¬(List.replicate 6 ({ field := "general" } : Complaint)).isEmpty = true)]
    rw [hboost]
    rw [if_pos (by norm_num : (48 : ℚ)/100 > 0)]
    show round1 (max 0 (min 100 (100 - (100 - 50) * (1 - 48/100)))) = 74
    rw [show (100 : ℚ) - (100 - 50) * (1 - 48/100) = 74 by norm_num]
    rw [min_eq_right (by norm_num), max_eq_right (by norm_num)]
    exact_mod_cast round1_intCast 74
  have hstat : (process_csv_row { NPI := "1", First_Name := "J", Last_Name := "D" }
      (.error "boom") (List.replicate 6 { field := "general" })).status = "Flagged" := by
    simp only [process_csv_row]
    rw [if_neg (by decide :
      ¬(List.replicate 6 ({ field := "general" } : Complaint)).isEmpty = true)]
    rw [hboost]
    rw [if_pos (by norm_num : (48 : ℚ)/100 > 0)]
    show (if round1 (max 0 (min 100 (100 - (100 - 50) * (1 - 48/100)))) > 70 then "Flagged"
      else if round1 (max 0 (min 100 (100 - (100 - 50) * (1 - 48/100)))) > 35 then "Review"
      else "Review") = "Flagged"
    rw [show (100 : ℚ) - (100 - 50) * (1 - 48/100) = 74 by norm_num]
    rw [min_eq_right (by norm_num), max_eq_right (by norm_num)]
    rw [if_pos]
    rw [show (74 : ℚ) = ((74 : ℤ) : ℚ) by norm_num, round1_intCast]
    norm_num
  exact ⟨hrisk, hstat, by norm_num, by decide⟩
